import Mathlib

/-!
Verification development for the PhonixCast CLI (src/app/main.py).

The program wraps two external binaries (adb, scrcpy).  We embed it
shallowly: external-world behaviour is an oracle `World` giving, for each
issued command line, the exit code and captured stdout/stderr, plus the
availability of each binary on the search path.  Program runs produce an
explicit trace of events (commands issued, lines printed to stdout/stderr),
and Python exceptions are modelled with `Except`.
-/

namespace PhonixCast

/-- Events observable during a run: an external command being issued,
a line printed to stdout, a line printed to stderr. -/
inductive Event where
  | run (cmd : List String)
  | print (msg : String)
  | printErr (msg : String)
deriving DecidableEq, Repr

/-- Python exceptions relevant to main.py: `RuntimeError` (raised by
_require_binary, list_devices, set_stay_awake and caught in `main`), and
`KeyError` (raised by the dict access `PROFILES[args.profile]`; not caught
by `except RuntimeError`, so it escapes to the interpreter). -/
inductive PyErr where
  | runtimeError (msg : String)
  | keyError (key : String)
deriving DecidableEq, Repr

/-- The external world: `which b` tells whether binary `b` resolves on the
search path (shutil.which); `run cmd` gives (returncode, stdout, stderr)
of executing `cmd` (subprocess.run with check=False never raises on
nonzero exit). -/
structure World where
  which : String → Bool
  run : List String → Int × String × String

/-- Mirrors the frozen dataclass `Profile` of main.py. -/
structure Profile where
  name : String
  bitrate : String
  max_fps : Nat
  codec : String
deriving DecidableEq, Repr

/-- The fixed profile table `PROFILES` of main.py, in dict insertion
order. -/
def PROFILES : List (String × Profile) :=
  [("balanced", ⟨"balanced", "8M", 60, "h264"⟩),
   ("low-latency", ⟨"low-latency", "6M", 45, "h264"⟩),
   ("ultra-low-latency", ⟨"ultra-low-latency", "4M", 30, "h264"⟩)]

/-- Dict access `PROFILES[name]`: `some` the stored profile, `none` models
the `KeyError` (the spec calls this failure `UnknownProfile`). -/
def getProfile (name : String) : Option Profile :=
  PROFILES.lookup name

/-- Split a character list at newline characters (auxiliary for
`splitlines`). -/
def splitOnNl : List Char → List (List Char)
  | [] => [[]]
  | c :: cs =>
    let r := splitOnNl cs
    if c = '\n' then [] :: r
    else
      match r with
      | [] => [[c]]
      | l :: ls => (c :: l) :: ls

/-- Drop a final empty line, as Python's splitlines does when the text
ends with a terminator. -/
def dropTrailingEmpty (ls : List String) : List String :=
  match ls.getLast? with
  | some "" => ls.dropLast
  | _ => ls

/-- Python's `str.splitlines()` restricted to the newline terminator used
by the bridge tool's output. -/
def splitlines (s : String) : List String :=
  dropTrailingEmpty ((splitOnNl s.toList).map (fun l => String.mk l))

/-- Python whitespace, as recognised by `str.split()` with no
arguments. -/
def pyIsSpace (c : Char) : Bool :=
  c = ' ' || c = '\t' || c = '\n' || c = '\r' || c = '\x0b' || c = '\x0c'

/-- Auxiliary for `pySplit`: scan the characters, accumulating the current
(reversed) word. -/
def pySplitAux : List Char → List Char → List String
  | [], acc => if acc.isEmpty then [] else [String.mk acc.reverse]
  | c :: cs, acc =>
    if pyIsSpace c then
      if acc.isEmpty then pySplitAux cs []
      else String.mk acc.reverse :: pySplitAux cs []
    else pySplitAux cs (c :: acc)

/-- Python's `str.strip()`: drop leading and trailing whitespace. -/
def pyStrip (s : String) : String :=
  String.mk (((s.toList.dropWhile pyIsSpace).reverse.dropWhile pyIsSpace).reverse)

/-- Python's `line.strip().split()`: split on runs of whitespace,
discarding empty fields (stripping first changes nothing, since leading
and trailing whitespace produce no fields anyway). -/
def pySplit (s : String) : List String :=
  pySplitAux s.toList []

/-- The parsing loop of `list_devices` (main.py lines 52-57): skip the
first line of the captured stdout, split each remaining line on
whitespace, and keep the first field of every line with at least two
fields whose second field is exactly "device". -/
def list_devices_parse (stdout : String) : List String :=
  ((splitlines stdout).drop 1).filterMap (fun line =>
    match pySplit line with
    | p0 :: p1 :: _ => if p1 = "device" then some p0 else none
    | _ => none)

/-- Modelled from the spec (section 4.3 Device Directory), for comparison
with `list_devices_parse`: skip the header line, keep the lines that have
at least two whitespace-separated fields with second field exactly
"device", and return their first fields in order. -/
def listDevices_spec (stdout : String) : List String :=
  (((splitlines stdout).drop 1).filter (fun line =>
      decide (2 ≤ (pySplit line).length) &&
      decide ((pySplit line).get? 1 = some "device"))).map
    (fun line => (pySplit line).headI)

/-- The arguments of the `start` subcommand, as argparse produces them:
`serial` is `none` when the flag is absent, `max_size` is `none` when
absent and otherwise the parsed integer. -/
structure StartArgs where
  profile : String
  serial : Option String
  max_size : Option Int
  turn_screen_off : Bool
  stay_awake : Bool
  no_audio : Bool
deriving DecidableEq, Repr

/-- Python truthiness of `args.serial or devices[0]` (main.py line 76):
`None` and the empty string both fall back to the default. -/
def pyOr (s : Option String) (d : String) : String :=
  match s with
  | none => d
  | some s => if s = "" then d else s

/-- Python truthiness of `if args.max_size:` (main.py line 96): `None`
and `0` are falsy, every other integer is truthy. -/
def intOptTruthy : Option Int → Bool
  | none => false
  | some n => decide (n ≠ 0)

/-- The scrcpy command line assembled in main.py lines 84-103: four fixed
argument pairs from the profile, then the conditional extensions. -/
def build_cmd (profile : Profile) (args : StartArgs) (device : String) : List String :=
  ["scrcpy", "--serial", device, "--video-bit-rate", profile.bitrate,
   "--max-fps", toString profile.max_fps, "--video-codec", profile.codec] ++
  (if intOptTruthy args.max_size then ["--max-size", toString (args.max_size.getD 0)] else []) ++
  (if args.turn_screen_off then ["--turn-screen-off"] else []) ++
  (if args.no_audio then ["--no-audio"] else [])

/-- The settings command issued by `set_stay_awake` (main.py line 62). -/
def stayAwakeCmd (device : String) (enabled : Bool) : List String :=
  ["adb", "-s", device, "shell", "settings", "put", "global",
   "stay_on_while_plugged_in", if enabled then "3" else "0"]

def stayAwakeErrMsg : String :=
  "No se pudo configurar stay_awake en el dispositivo."

/-- Function set_stay_awake (main.py lines 60-65): issue the settings command and
raise `RuntimeError` when it exits nonzero. -/
def set_stay_awake (w : World) (device : String) (enabled : Bool) :
    Except PyErr Unit × List Event :=
  if (w.run (stayAwakeCmd device enabled)).1 ≠ 0 then
    (.error (.runtimeError stayAwakeErrMsg), [.run (stayAwakeCmd device enabled)])
  else
    (.ok (), [.run (stayAwakeCmd device enabled)])

/-- Function list_devices (main.py lines 47-57): run `adb devices` with output
captured; `RuntimeError` carrying the stripped stderr when it exits
nonzero, otherwise the parsed serial list. -/
def list_devices (w : World) : Except PyErr (List String) × List Event :=
  let r := w.run ["adb", "devices"]
  if r.1 ≠ 0 then
    (.error (.runtimeError ("Fallo ejecutando adb devices: " ++ pyStrip r.2.2)),
     [.run ["adb", "devices"]])
  else
    (.ok (list_devices_parse r.2.1), [.run ["adb", "devices"]])

def noDevicesMsg : String :=
  "No se encontraron dispositivos Android en modo \x27device\x27."

def unavailableMsg (device : String) : String :=
  "El dispositivo solicitado (" ++ device ++ ") no está disponible."

def startingMsg (profileName device : String) : String :=
  "Iniciando transmisión con perfil \x27" ++ profileName ++
  "\x27 en dispositivo " ++ device ++ "..."

def restoreWarnMsg : String :=
  "Advertencia: no se pudo restaurar stay_awake automáticamente."

/-- Main.py lines 105-117: print the starting banner, run the scrcpy
command with output inherited, then (when stay-awake was requested)
attempt to restore the setting, downgrading a `RuntimeError` of the
restore call to a printed warning; return the scrcpy exit code. -/
def run_and_restore (args : StartArgs) (w : World) (profile : Profile)
    (device : String) : Except PyErr Int × List Event :=
  let cmd := build_cmd profile args device
  let t := [Event.print (startingMsg profile.name device), Event.run cmd]
  let code := (w.run cmd).1
  if args.stay_awake then
    match set_stay_awake w device false with
    | (.error _, td) => (.ok code, t ++ td ++ [.printErr restoreWarnMsg])
    | (.ok _, td) => (.ok code, t ++ td)
  else
    (.ok code, t)

/-- Function start_stream (main.py lines 68-117): profile lookup, device
discovery, resolution of the target device, the two exit-2 aborts,
optional stay-awake enable (a nonzero exit raises `RuntimeError`), then
the streaming step. -/
def start_stream (args : StartArgs) (w : World) : Except PyErr Int × List Event :=
  match getProfile args.profile with
  | none => (.error (.keyError args.profile), [])
  | some profile =>
    match list_devices w with
    | (.error e, t) => (.error e, t)
    | (.ok [], t) => (.ok 2, t ++ [.printErr noDevicesMsg])
    | (.ok (d0 :: ds), t) =>
      let device := pyOr args.serial d0
      if device ∈ d0 :: ds then
        if args.stay_awake then
          match set_stay_awake w device true with
          | (.error e, te) => (.error e, t ++ te)
          | (.ok _, te) =>
            let r := run_and_restore args w profile device
            (r.1, t ++ te ++ r.2)
        else
          let r := run_and_restore args w profile device
          (r.1, t ++ r.2)
      else
        (.ok 2, t ++ [.printErr (unavailableMsg device)])

/-- Function print_profiles (main.py lines 120-127). -/
def print_profiles : Int × List Event :=
  (0, Event.print "Perfiles disponibles:" ::
    PROFILES.map (fun pr =>
      Event.print ("- " ++ pr.2.name ++ ": bitrate=" ++ pr.2.bitrate ++
        ", max_fps=" ++ toString pr.2.max_fps ++ ", codec=" ++ pr.2.codec)))

/-- Function print_devices (main.py lines 130-139): list the discovered serials
or print a no-devices line; returns 0 in both cases, but propagates the
`RuntimeError` of a failed `adb devices` query. -/
def print_devices (w : World) : Except PyErr Int × List Event :=
  match list_devices w with
  | (.error e, t) => (.error e, t)
  | (.ok [], t) => (.ok 0, t ++ [.print "Sin dispositivos conectados."])
  | (.ok (d0 :: ds), t) =>
    (.ok 0, t ++ (Event.print "Dispositivos detectados:" ::
      (d0 :: ds).map (fun s => Event.print ("- " ++ s))))

/-- The parsed command line: one of the three subcommands (argparse
rejects everything else before `main`'s dispatch runs). -/
inductive Command where
  | profiles
  | devices
  | start (args : StartArgs)

def requireBinaryMsg (b : String) : String :=
  "No se encontró \x27" ++ b ++ "\x27 en PATH."

/-- The `except RuntimeError` handler of `main` (lines 182-184): a
`RuntimeError` becomes a printed one-line error and exit status 1.  A
`KeyError` is not caught there; it escapes to the interpreter, which
prints a traceback to stderr and exits with status 1 as well. -/
def handle : Except PyErr Int × List Event → Int × List Event
  | (.ok n, t) => (n, t)
  | (.error (.runtimeError m), t) => (1, t ++ [.printErr ("Error: " ++ m)])
  | (.error (.keyError k), t) => (1, t ++ [.printErr ("KeyError: " ++ k)])

/-- Function main (main.py lines 163-184): prerequisite checks (adb for devices
and start, scrcpy additionally for start; `_require_binary` raises
`RuntimeError` when absent), then dispatch, with the RuntimeError
handler wrapped around everything. -/
def main (c : Command) (w : World) : Int × List Event :=
  match c with
  | .profiles => print_profiles
  | .devices =>
    if w.which "adb" then handle (print_devices w)
    else (1, [.printErr ("Error: " ++ requireBinaryMsg "adb")])
  | .start args =>
    if w.which "adb" then
      if w.which "scrcpy" then handle (start_stream args w)
      else (1, [.printErr ("Error: " ++ requireBinaryMsg "scrcpy")])
    else (1, [.printErr ("Error: " ++ requireBinaryMsg "adb")])

/-! ## Helper lemmas -/

/-- The filterMap of the code's parsing loop coincides, line by line, with
filtering the qualifying lines and taking their first field. -/
theorem filterMap_qualifying (ls : List String) :
    ls.filterMap (fun line =>
      match pySplit line with
      | p0 :: p1 :: _ => if p1 = "device" then some p0 else none
      | _ => none) =
    (ls.filter (fun line =>
        decide (2 ≤ (pySplit line).length) &&
        decide ((pySplit line).get? 1 = some "device"))).map
      (fun line => (pySplit line).headI) := by
  induction ls with
  | nil => rfl
  | cons l ls ih =>
    simp only [List.filterMap_cons, List.filter_cons]
    rcases hsp : pySplit l with _ | ⟨p0, _ | ⟨p1, rest⟩⟩
    · simp [hsp, ih]
    · simp [hsp, ih]
    · by_cases hdev : p1 = "device"
      · simp [hsp, hdev, ih]
      · simp [hsp, hdev, ih]

/-- A successful `adb devices` query returns the parsed serial list. -/
theorem list_devices_ok (w : World) (hq : (w.run ["adb", "devices"]).1 = 0) :
    list_devices w =
      (.ok (list_devices_parse (w.run ["adb", "devices"]).2.1),
       [.run ["adb", "devices"]]) := by
  simp [list_devices, hq]

/-- Without `--stay-awake`, the streaming step just runs the command. -/
theorem run_and_restore_nosa (args : StartArgs) (w : World) (profile : Profile)
    (device : String) (hsa : args.stay_awake = false) :
    run_and_restore args w profile device =
      (.ok (w.run (build_cmd profile args device)).1,
       [Event.print (startingMsg profile.name device),
        Event.run (build_cmd profile args device)]) := by
  simp [run_and_restore, hsa]

/-- With `--stay-awake`, the streaming step runs the command, then issues
the disable call, and a failed disable only adds a printed warning. -/
theorem run_and_restore_sa (args : StartArgs) (w : World) (profile : Profile)
    (device : String) (hsa : args.stay_awake = true) :
    run_and_restore args w profile device =
      (.ok (w.run (build_cmd profile args device)).1,
       [Event.print (startingMsg profile.name device),
        Event.run (build_cmd profile args device),
        Event.run (stayAwakeCmd device false)] ++
       (if (w.run (stayAwakeCmd device false)).1 ≠ 0 then
          [Event.printErr restoreWarnMsg] else [])) := by
  by_cases h : (w.run (stayAwakeCmd device false)).1 = 0 <;>
    simp [run_and_restore, hsa, set_stay_awake, h]

/-- Branch lemma: empty device list aborts with status 2. -/
theorem start_stream_nodev (args : StartArgs) (w : World) (p : Profile)
    (hp : getProfile args.profile = some p)
    (hq : (w.run ["adb", "devices"]).1 = 0)
    (hd : list_devices_parse (w.run ["adb", "devices"]).2.1 = []) :
    start_stream args w =
      (.ok 2, [.run ["adb", "devices"], .printErr noDevicesMsg]) := by
  unfold start_stream
  rw [hp, list_devices_ok w hq, hd]
  rfl

/-- Branch lemma: a resolved device absent from the discovered list
aborts with status 2 and the message naming it. -/
theorem start_stream_unavail (args : StartArgs) (w : World) (p : Profile)
    (d0 : String) (ds : List String)
    (hp : getProfile args.profile = some p)
    (hq : (w.run ["adb", "devices"]).1 = 0)
    (hd : list_devices_parse (w.run ["adb", "devices"]).2.1 = d0 :: ds)
    (hmem : pyOr args.serial d0 ∉ d0 :: ds) :
    start_stream args w =
      (.ok 2, [.run ["adb", "devices"],
               .printErr (unavailableMsg (pyOr args.serial d0))]) := by
  unfold start_stream
  rw [hp, list_devices_ok w hq, hd]
  simp [hmem]

/-- Branch lemma: a failing stay-awake enable call raises RuntimeError
before the streaming step. -/
theorem start_stream_safail (args : StartArgs) (w : World) (p : Profile)
    (d0 : String) (ds : List String)
    (hp : getProfile args.profile = some p)
    (hq : (w.run ["adb", "devices"]).1 = 0)
    (hd : list_devices_parse (w.run ["adb", "devices"]).2.1 = d0 :: ds)
    (hmem : pyOr args.serial d0 ∈ d0 :: ds)
    (hsa : args.stay_awake = true)
    (hen : (w.run (stayAwakeCmd (pyOr args.serial d0) true)).1 ≠ 0) :
    start_stream args w =
      (.error (.runtimeError stayAwakeErrMsg),
       [.run ["adb", "devices"],
        .run (stayAwakeCmd (pyOr args.serial d0) true)]) := by
  unfold start_stream
  rw [hp, list_devices_ok w hq, hd]
  simp [hmem, hsa, set_stay_awake, hen]

/-- Branch lemma: with `--stay-awake` and a successful enable call, the
run reaches streaming; its full result and trace. -/
theorem start_stream_sa (args : StartArgs) (w : World) (p : Profile)
    (d0 : String) (ds : List String)
    (hp : getProfile args.profile = some p)
    (hq : (w.run ["adb", "devices"]).1 = 0)
    (hd : list_devices_parse (w.run ["adb", "devices"]).2.1 = d0 :: ds)
    (hmem : pyOr args.serial d0 ∈ d0 :: ds)
    (hsa : args.stay_awake = true)
    (hen : (w.run (stayAwakeCmd (pyOr args.serial d0) true)).1 = 0) :
    start_stream args w =
      (.ok (w.run (build_cmd p args (pyOr args.serial d0))).1,
       [.run ["adb", "devices"],
        .run (stayAwakeCmd (pyOr args.serial d0) true),
        .print (startingMsg p.name (pyOr args.serial d0)),
        .run (build_cmd p args (pyOr args.serial d0)),
        .run (stayAwakeCmd (pyOr args.serial d0) false)] ++
       (if (w.run (stayAwakeCmd (pyOr args.serial d0) false)).1 ≠ 0 then
          [.printErr restoreWarnMsg] else [])) := by
  unfold start_stream
  rw [hp, list_devices_ok w hq, hd]
  simp only [hmem, if_pos, hsa, if_true]
  rw [run_and_restore_sa args w p (pyOr args.serial d0) hsa]
  by_cases h : (w.run (stayAwakeCmd (pyOr args.serial d0) false)).1 = 0 <;>
    simp [set_stay_awake, hen, h]

/-- Branch lemma: without `--stay-awake` the run reaches streaming; its
full result and trace. -/
theorem start_stream_nosa (args : StartArgs) (w : World) (p : Profile)
    (d0 : String) (ds : List String)
    (hp : getProfile args.profile = some p)
    (hq : (w.run ["adb", "devices"]).1 = 0)
    (hd : list_devices_parse (w.run ["adb", "devices"]).2.1 = d0 :: ds)
    (hmem : pyOr args.serial d0 ∈ d0 :: ds)
    (hsa : args.stay_awake = false) :
    start_stream args w =
      (.ok (w.run (build_cmd p args (pyOr args.serial d0))).1,
       [.run ["adb", "devices"],
        .print (startingMsg p.name (pyOr args.serial d0)),
        .run (build_cmd p args (pyOr args.serial d0))]) := by
  unfold start_stream
  rw [hp, list_devices_ok w hq, hd]
  simp only [hmem, if_pos, hsa, if_false, Bool.false_eq_true]
  rw [run_and_restore_nosa args w p (pyOr args.serial d0) hsa]
  rfl

/-! ## Claim theorems -/

/-- C1: for every captured device-listing text, `list_devices_parse`
skips the first line and returns exactly the first whitespace-separated
field of each remaining line that has at least two fields and whose
second field is the token "device", in order; in particular the
two concrete examples of the spec hold. -/
theorem c1_list_devices_parses_ready_lines :
    (∀ s : String, list_devices_parse s = listDevices_spec s) ∧
    list_devices_parse
        "List of devices attached\nABC123\tdevice\tusb\nXYZ999\tunauthorized\tusb\n" =
      ["ABC123"] ∧
    list_devices_parse "List of devices attached\n" = [] := by
  refine ⟨fun s => ?_, by decide, by decide⟩
  unfold list_devices_parse listDevices_spec
  exact filterMap_qualifying _

/-- C5: for each of the three fixed keys, profile lookup returns the
exact recorded record of the table; for every other name the lookup
fails (the `KeyError` the spec calls `UnknownProfile`). -/
theorem c5_profile_table_lookup (n : String)
    (h1 : n ≠ "balanced") (h2 : n ≠ "low-latency")
    (h3 : n ≠ "ultra-low-latency") :
    getProfile "balanced" = some ⟨"balanced", "8M", 60, "h264"⟩ ∧
    getProfile "low-latency" = some ⟨"low-latency", "6M", 45, "h264"⟩ ∧
    getProfile "ultra-low-latency" = some ⟨"ultra-low-latency", "4M", 30, "h264"⟩ ∧
    getProfile n = none := by
  refine ⟨by decide, by decide, by decide, ?_⟩
  have e1 : (n == "balanced") = false := beq_eq_false_iff_ne.mpr h1
  have e2 : (n == "low-latency") = false := beq_eq_false_iff_ne.mpr h2
  have e3 : (n == "ultra-low-latency") = false := beq_eq_false_iff_ne.mpr h3
  simp [getProfile, PROFILES, List.lookup, e1, e2, e3]

/-- Witness for C5 at the concrete unknown name "hdr". -/
theorem c5_profile_table_lookup_witness :
    getProfile "balanced" = some ⟨"balanced", "8M", 60, "h264"⟩ ∧
    getProfile "low-latency" = some ⟨"low-latency", "6M", 45, "h264"⟩ ∧
    getProfile "ultra-low-latency" = some ⟨"ultra-low-latency", "4M", 30, "h264"⟩ ∧
    getProfile "hdr" = none :=
  c5_profile_table_lookup "hdr" (by decide) (by decide) (by decide)

/-- C3: the command built for the resolved "balanced" profile with no
optional flags is exactly the serial/bitrate/fps/codec argument pairs;
`--max-size 1024` appends exactly one extra pair, and each of the two
boolean flags appends exactly its own flag when requested. -/
theorem c3_balanced_command (p : Profile) (device : String)
    (ser : Option String) (sa : Bool)
    (hp : getProfile "balanced" = some p) :
    build_cmd p ⟨"balanced", ser, none, false, sa, false⟩ device =
      ["scrcpy", "--serial", device, "--video-bit-rate", "8M",
       "--max-fps", "60", "--video-codec", "h264"] ∧
    build_cmd p ⟨"balanced", ser, some 1024, false, sa, false⟩ device =
      ["scrcpy", "--serial", device, "--video-bit-rate", "8M",
       "--max-fps", "60", "--video-codec", "h264"] ++ ["--max-size", "1024"] ∧
    build_cmd p ⟨"balanced", ser, none, true, sa, false⟩ device =
      ["scrcpy", "--serial", device, "--video-bit-rate", "8M",
       "--max-fps", "60", "--video-codec", "h264"] ++ ["--turn-screen-off"] ∧
    build_cmd p ⟨"balanced", ser, none, false, sa, true⟩ device =
      ["scrcpy", "--serial", device, "--video-bit-rate", "8M",
       "--max-fps", "60", "--video-codec", "h264"] ++ ["--no-audio"] := by
  have hpe : p = ⟨"balanced", "8M", 60, "h264"⟩ := by
    have h0 : getProfile "balanced" = some ⟨"balanced", "8M", 60, "h264"⟩ := by decide
    rw [hp] at h0
    injection h0 with h
  subst hpe
  refine ⟨rfl, rfl, rfl, rfl⟩

/-- Witness for C3 at a concrete device serial. -/
theorem c3_balanced_command_witness :
    build_cmd ⟨"balanced", "8M", 60, "h264"⟩
        ⟨"balanced", none, none, false, false, false⟩ "ABC123" =
      ["scrcpy", "--serial", "ABC123", "--video-bit-rate", "8M",
       "--max-fps", "60", "--video-codec", "h264"] ∧
    build_cmd ⟨"balanced", "8M", 60, "h264"⟩
        ⟨"balanced", none, some 1024, false, false, false⟩ "ABC123" =
      ["scrcpy", "--serial", "ABC123", "--video-bit-rate", "8M",
       "--max-fps", "60", "--video-codec", "h264"] ++ ["--max-size", "1024"] :=
  ⟨(c3_balanced_command ⟨"balanced", "8M", 60, "h264"⟩ "ABC123" none false (by decide)).1,
   (c3_balanced_command ⟨"balanced", "8M", 60, "h264"⟩ "ABC123" none false (by decide)).2.1⟩

/-- C10: an explicit `--max-size 0` behaves exactly like an absent
`--max-size`: the truthiness test makes the two command lines equal, so
no max-dimension pair is appended for the value 0. -/
theorem c10_max_size_zero_is_absent (p : Profile) (device prof : String)
    (ser : Option String) (tso sa na : Bool) :
    build_cmd p ⟨prof, ser, some 0, tso, sa, na⟩ device =
      build_cmd p ⟨prof, ser, none, tso, sa, na⟩ device := rfl

/-- C6: when the device directory comes back empty, a start invocation
exits with status 2, prints the no-devices message to stderr, and never
issues a scrcpy command. -/
theorem c6_no_devices_aborts (args : StartArgs) (w : World) (p : Profile)
    (hadb : w.which "adb" = true) (hscr : w.which "scrcpy" = true)
    (hp : getProfile args.profile = some p)
    (hq : (w.run ["adb", "devices"]).1 = 0)
    (hd : list_devices_parse (w.run ["adb", "devices"]).2.1 = []) :
    main (Command.start args) w =
      (2, [.run ["adb", "devices"], .printErr noDevicesMsg]) ∧
    ∀ cmd, Event.run cmd ∈ (main (Command.start args) w).2 →
      cmd.head? ≠ some "scrcpy" := by
  have hm : main (Command.start args) w =
      (2, [.run ["adb", "devices"], .printErr noDevicesMsg]) := by
    simp only [main, hadb, hscr, if_true]
    rw [start_stream_nodev args w p hp hq hd]
    rfl
  refine ⟨hm, ?_⟩
  rw [hm]
  intro cmd hc
  simp only [List.mem_cons, List.mem_singleton] at hc
  rcases hc with h | h | h
  · cases h; decide
  · cases h
  · cases h

/-- Witness for C6: no attached devices at all. -/
theorem c6_no_devices_aborts_witness :
    main (Command.start (StartArgs.mk "balanced" none none false false false))
        (World.mk (fun _ => true) (fun _ => (0, "List of devices attached\n", ""))) =
      (2, [.run ["adb", "devices"], .printErr noDevicesMsg]) :=
  (c6_no_devices_aborts (StartArgs.mk "balanced" none none false false false)
    (World.mk (fun _ => true) (fun _ => (0, "List of devices attached\n", "")))
    ⟨"balanced", "8M", 60, "h264"⟩ rfl rfl (by decide) rfl (by decide)).1

/-- Counterexample for C7 as frozen.  First input: the discovered list is
["ABC123"] and the requested serial is the empty string, which is not
among the discovered serials; yet the run does not exit with status 2 —
Python's `args.serial or devices[0]` treats "" as absent, streams to
ABC123, and passes through the mirroring exit code 7.  Second input: no
devices are discovered and serial "XYZ999" is requested; the exit status
is 2 but the printed message is the generic no-devices one, which does
not name XYZ999. -/
theorem c7_counterexample :
    list_devices_parse "List of devices attached\nABC123\tdevice\tusb\n" =
      ["ABC123"] ∧
    "" ∉ list_devices_parse "List of devices attached\nABC123\tdevice\tusb\n" ∧
    main (Command.start (StartArgs.mk "balanced" (some "") none false false false))
        (World.mk (fun _ => true)
          (fun cmd =>
            if cmd = ["adb", "devices"] then
              (0, "List of devices attached\nABC123\tdevice\tusb\n", "")
            else (7, "", ""))) =
      (7, [Event.run ["adb", "devices"],
           Event.print (startingMsg "balanced" "ABC123"),
           Event.run ["scrcpy", "--serial", "ABC123", "--video-bit-rate", "8M",
                      "--max-fps", "60", "--video-codec", "h264"]]) ∧
    main (Command.start (StartArgs.mk "balanced" (some "XYZ999") none false false false))
        (World.mk (fun _ => true) (fun _ => (0, "List of devices attached\n", ""))) =
      (2, [Event.run ["adb", "devices"], Event.printErr noDevicesMsg]) := by
  refine ⟨by decide, by decide, by decide, by decide⟩

/-- C7 as amended: for a start invocation with a NONEMPTY requested
serial X that is not among the discovered serials, with at least one
device discovered, the run exits with status 2, prints the message naming
X to stderr, and never issues a scrcpy command. -/
theorem c7_unavailable_serial_aborts (args : StartArgs) (w : World)
    (p : Profile) (x d0 : String) (ds : List String)
    (hadb : w.which "adb" = true) (hscr : w.which "scrcpy" = true)
    (hp : getProfile args.profile = some p)
    (hq : (w.run ["adb", "devices"]).1 = 0)
    (hd : list_devices_parse (w.run ["adb", "devices"]).2.1 = d0 :: ds)
    (hser : args.serial = some x) (hx : x ≠ "")
    (hmem : x ∉ d0 :: ds) :
    main (Command.start args) w =
      (2, [.run ["adb", "devices"], .printErr (unavailableMsg x)]) ∧
    ∀ cmd, Event.run cmd ∈ (main (Command.start args) w).2 →
      cmd.head? ≠ some "scrcpy" := by
  have hpy : pyOr args.serial d0 = x := by
    rw [hser]
    simp [pyOr, hx]
  have hm : main (Command.start args) w =
      (2, [.run ["adb", "devices"], .printErr (unavailableMsg x)]) := by
    simp only [main, hadb, hscr, if_true]
    rw [start_stream_unavail args w p d0 ds hp hq hd (hpy ▸ hmem), hpy]
    rfl
  refine ⟨hm, ?_⟩
  rw [hm]
  intro cmd hc
  simp only [List.mem_cons, List.mem_singleton] at hc
  rcases hc with h | h | h
  · cases h; decide
  · cases h
  · cases h

/-- Witness for the amended C7: serial "XYZ999" requested while only
ABC123 is attached. -/
theorem c7_unavailable_serial_aborts_witness :
    main (Command.start (StartArgs.mk "balanced" (some "XYZ999") none false false false))
        (World.mk (fun _ => true)
          (fun _ => (0, "List of devices attached\nABC123\tdevice\tusb\n", ""))) =
      (2, [.run ["adb", "devices"], .printErr (unavailableMsg "XYZ999")]) :=
  (c7_unavailable_serial_aborts
    (StartArgs.mk "balanced" (some "XYZ999") none false false false)
    (World.mk (fun _ => true)
      (fun _ => (0, "List of devices attached\nABC123\tdevice\tusb\n", "")))
    ⟨"balanced", "8M", 60, "h264"⟩ "XYZ999" "ABC123" []
    rfl rfl (by decide) rfl (by decide) rfl (by decide) (by decide)).1

/-- C2: with `--stay-awake`, when a device is discovered and the resolved
device is available (in particular the enable settings call succeeds, the
spec treats a failing enable as the device being unreachable), the full
trace shows the enable call strictly before the scrcpy invocation and the
disable call strictly after it, for every scrcpy exit code; the final
exit status is exactly the scrcpy exit code whether or not the disable
call fails — a failing disable only appends a printed warning. -/
theorem c2_stay_awake_bracketing (args : StartArgs) (w : World) (p : Profile)
    (d0 : String) (ds : List String)
    (hadb : w.which "adb" = true) (hscr : w.which "scrcpy" = true)
    (hp : getProfile args.profile = some p)
    (hq : (w.run ["adb", "devices"]).1 = 0)
    (hd : list_devices_parse (w.run ["adb", "devices"]).2.1 = d0 :: ds)
    (hmem : pyOr args.serial d0 ∈ d0 :: ds)
    (hsa : args.stay_awake = true)
    (hen : (w.run (stayAwakeCmd (pyOr args.serial d0) true)).1 = 0) :
    main (Command.start args) w =
      ((w.run (build_cmd p args (pyOr args.serial d0))).1,
       [.run ["adb", "devices"],
        .run (stayAwakeCmd (pyOr args.serial d0) true),
        .print (startingMsg p.name (pyOr args.serial d0)),
        .run (build_cmd p args (pyOr args.serial d0)),
        .run (stayAwakeCmd (pyOr args.serial d0) false)] ++
       (if (w.run (stayAwakeCmd (pyOr args.serial d0) false)).1 ≠ 0 then
          [.printErr restoreWarnMsg] else [])) := by
  simp only [main, hadb, hscr, if_true]
  rw [start_stream_sa args w p d0 ds hp hq hd hmem hsa hen]
  rfl

/-- Witness for C2: one attached device, scrcpy exits with code 9, and
the disable call fails with exit code 1; the run still returns 9 and the
trace shows enable, scrcpy, disable in order plus the warning. -/
theorem c2_stay_awake_bracketing_witness :
    main (Command.start (StartArgs.mk "balanced" none none false true false))
        (World.mk (fun _ => true)
          (fun cmd =>
            if cmd = ["adb", "devices"] then
              (0, "List of devices attached\nABC123\tdevice\tusb\n", "")
            else if cmd = stayAwakeCmd "ABC123" true then (0, "", "")
            else if cmd = stayAwakeCmd "ABC123" false then (1, "", "")
            else (9, "", ""))) =
      (9, [.run ["adb", "devices"],
           .run (stayAwakeCmd "ABC123" true),
           .print (startingMsg "balanced" "ABC123"),
           .run ["scrcpy", "--serial", "ABC123", "--video-bit-rate", "8M",
                 "--max-fps", "60", "--video-codec", "h264"],
           .run (stayAwakeCmd "ABC123" false),
           .printErr restoreWarnMsg]) := by
  have h := c2_stay_awake_bracketing
    (StartArgs.mk "balanced" none none false true false)
    (World.mk (fun _ => true)
      (fun cmd =>
        if cmd = ["adb", "devices"] then
          (0, "List of devices attached\nABC123\tdevice\tusb\n", "")
        else if cmd = stayAwakeCmd "ABC123" true then (0, "", "")
        else if cmd = stayAwakeCmd "ABC123" false then (1, "", "")
        else (9, "", "")))
    ⟨"balanced", "8M", 60, "h264"⟩ "ABC123" []
    rfl rfl (by decide) (by decide) (by decide) (by decide) rfl (by decide)
  rw [h]
  decide

/-- C8: when no serial is requested and the discovered list is nonempty,
the resolved target is the first discovered serial: the scrcpy command
issued in the trace selects exactly that serial. -/
theorem c8_defaults_to_first_device (args : StartArgs) (w : World)
    (p : Profile) (d0 : String) (ds : List String)
    (hadb : w.which "adb" = true) (hscr : w.which "scrcpy" = true)
    (hp : getProfile args.profile = some p)
    (hq : (w.run ["adb", "devices"]).1 = 0)
    (hd : list_devices_parse (w.run ["adb", "devices"]).2.1 = d0 :: ds)
    (hser : args.serial = none)
    (hen : args.stay_awake = true → (w.run (stayAwakeCmd d0 true)).1 = 0) :
    ∃ rest, Event.run ("scrcpy" :: "--serial" :: d0 :: rest) ∈
      (main (Command.start args) w).2 := by
  have hpy : pyOr args.serial d0 = d0 := by rw [hser]; rfl
  have hmem : pyOr args.serial d0 ∈ d0 :: ds := by
    rw [hpy]; exact List.mem_cons_self d0 ds
  have hb : ∃ rest, build_cmd p args d0 = "scrcpy" :: "--serial" :: d0 :: rest :=
    ⟨_, rfl⟩
  obtain ⟨rest, hbe⟩ := hb
  refine ⟨rest, ?_⟩
  simp only [main, hadb, hscr, if_true]
  cases hsa : args.stay_awake with
  | false =>
    rw [start_stream_nosa args w p d0 ds hp hq hd hmem hsa, hpy, hbe]
    simp [handle]
  | true =>
    rw [start_stream_sa args w p d0 ds hp hq hd hmem hsa
          (by rw [hpy]; exact hen hsa), hpy, hbe]
    simp [handle]

/-- Witness for C8: two attached devices, no serial requested; the scrcpy
command targets the first one. -/
theorem c8_defaults_to_first_device_witness :
    ∃ rest, Event.run ("scrcpy" :: "--serial" :: "ABC123" :: rest) ∈
      (main (Command.start (StartArgs.mk "balanced" none none false false false))
        (World.mk (fun _ => true)
          (fun _ =>
            (0, "List of devices attached\nABC123\tdevice\tusb\nDEF456\tdevice\tusb\n",
             "")))).2 :=
  c8_defaults_to_first_device
    (StartArgs.mk "balanced" none none false false false)
    (World.mk (fun _ => true)
      (fun _ =>
        (0, "List of devices attached\nABC123\tdevice\tusb\nDEF456\tdevice\tusb\n",
         "")))
    ⟨"balanced", "8M", 60, "h264"⟩ "ABC123" ["DEF456"]
    rfl rfl (by decide) rfl (by decide) rfl (by simp)

/-- C4: the exit-status policy of a start invocation: a missing
dependency exits 1; a successful query with an empty device list exits
2; a resolved device absent from the discovered list exits 2; a failing
stay-awake enable call exits 1; and every run that reaches the streaming
step passes the mirroring subprocess's own exit code through unchanged. -/
theorem c4_exit_status_policy (args : StartArgs) (w : World) (p : Profile)
    (d0 : String) (ds : List String)
    (hp : getProfile args.profile = some p) :
    ((w.which "adb" = false ∨ w.which "scrcpy" = false) →
      (main (Command.start args) w).1 = 1) ∧
    (w.which "adb" = true → w.which "scrcpy" = true →
      (w.run ["adb", "devices"]).1 = 0 →
      list_devices_parse (w.run ["adb", "devices"]).2.1 = [] →
      (main (Command.start args) w).1 = 2) ∧
    (w.which "adb" = true → w.which "scrcpy" = true →
      (w.run ["adb", "devices"]).1 = 0 →
      list_devices_parse (w.run ["adb", "devices"]).2.1 = d0 :: ds →
      pyOr args.serial d0 ∉ d0 :: ds →
      (main (Command.start args) w).1 = 2) ∧
    (w.which "adb" = true → w.which "scrcpy" = true →
      (w.run ["adb", "devices"]).1 = 0 →
      list_devices_parse (w.run ["adb", "devices"]).2.1 = d0 :: ds →
      pyOr args.serial d0 ∈ d0 :: ds →
      args.stay_awake = true →
      (w.run (stayAwakeCmd (pyOr args.serial d0) true)).1 ≠ 0 →
      (main (Command.start args) w).1 = 1) ∧
    (w.which "adb" = true → w.which "scrcpy" = true →
      (w.run ["adb", "devices"]).1 = 0 →
      list_devices_parse (w.run ["adb", "devices"]).2.1 = d0 :: ds →
      pyOr args.serial d0 ∈ d0 :: ds →
      (args.stay_awake = true →
        (w.run (stayAwakeCmd (pyOr args.serial d0) true)).1 = 0) →
      (main (Command.start args) w).1 =
        (w.run (build_cmd p args (pyOr args.serial d0))).1) := by
  refine ⟨?_, ?_, ?_, ?_, ?_⟩
  · intro h
    rcases h with h | h
    · simp [main, h]
    · cases ha : w.which "adb" <;> simp [main, ha, h]
  · intro hadb hscr hq hd
    simp only [main, hadb, hscr, if_true]
    rw [start_stream_nodev args w p hp hq hd]
    rfl
  · intro hadb hscr hq hd hmem
    simp only [main, hadb, hscr, if_true]
    rw [start_stream_unavail args w p d0 ds hp hq hd hmem]
    rfl
  · intro hadb hscr hq hd hmem hsa hen
    simp only [main, hadb, hscr, if_true]
    rw [start_stream_safail args w p d0 ds hp hq hd hmem hsa hen]
    rfl
  · intro hadb hscr hq hd hmem hen
    simp only [main, hadb, hscr, if_true]
    cases hsa : args.stay_awake with
    | false => rw [start_stream_nosa args w p d0 ds hp hq hd hmem hsa]; rfl
    | true => rw [start_stream_sa args w p d0 ds hp hq hd hmem hsa (hen hsa)]; rfl

/-- Witness for C4: a pass-through run returning the scrcpy exit code 5,
and a no-devices run returning the fixed status 2. -/
theorem c4_exit_status_policy_witness :
    (main (Command.start (StartArgs.mk "balanced" none none false false false))
      (World.mk (fun _ => true)
        (fun cmd =>
          if cmd = ["adb", "devices"] then
            (0, "List of devices attached\nABC123\tdevice\tusb\n", "")
          else (5, "", "")))).1 = 5 ∧
    (main (Command.start (StartArgs.mk "balanced" none none false false false))
      (World.mk (fun _ => true)
        (fun _ => (0, "List of devices attached\n", "")))).1 = 2 := by
  constructor
  · have h := (c4_exit_status_policy
      (StartArgs.mk "balanced" none none false false false)
      (World.mk (fun _ => true)
        (fun cmd =>
          if cmd = ["adb", "devices"] then
            (0, "List of devices attached\nABC123\tdevice\tusb\n", "")
          else (5, "", "")))
      ⟨"balanced", "8M", 60, "h264"⟩ "ABC123" []
      (by decide)).2.2.2.2 rfl rfl (by decide) (by decide) (by decide) (by decide)
    rw [h]
    decide
  · exact (c4_exit_status_policy
      (StartArgs.mk "balanced" none none false false false)
      (World.mk (fun _ => true) (fun _ => (0, "List of devices attached\n", "")))
      ⟨"balanced", "8M", 60, "h264"⟩ "x" []
      (by decide)).2.1 rfl rfl rfl (by decide)

/-- Counterexample for C9 as frozen: when the `adb devices` query itself
exits nonzero, the `devices` subcommand does not exit 0 — the raised
`RuntimeError` is caught in `main` and turned into exit status 1 with a
printed error. -/
theorem c9_counterexample :
    main Command.devices (World.mk (fun _ => true) (fun _ => (1, "", "boom"))) =
      (1, [Event.run ["adb", "devices"],
           Event.printErr "Error: Fallo ejecutando adb devices: boom"]) := by
  decide

/-- C9 as amended: when the device-listing query succeeds (exit 0), the
`devices` subcommand prints either the no-devices line or the discovered
serials and exits 0; when the query exits nonzero, the subcommand exits
with status 1 instead. -/
theorem c9_devices_exit_status (w : World) (hadb : w.which "adb" = true) :
    ((w.run ["adb", "devices"]).1 = 0 →
      list_devices_parse (w.run ["adb", "devices"]).2.1 = [] →
      main Command.devices w =
        (0, [.run ["adb", "devices"], .print "Sin dispositivos conectados."])) ∧
    (∀ d0 ds, (w.run ["adb", "devices"]).1 = 0 →
      list_devices_parse (w.run ["adb", "devices"]).2.1 = d0 :: ds →
      main Command.devices w =
        (0, .run ["adb", "devices"] :: .print "Dispositivos detectados:" ::
          (d0 :: ds).map (fun s => Event.print ("- " ++ s)))) ∧
    ((w.run ["adb", "devices"]).1 ≠ 0 →
      main Command.devices w =
        (1, [.run ["adb", "devices"],
             .printErr ("Error: " ++ ("Fallo ejecutando adb devices: " ++
               pyStrip (w.run ["adb", "devices"]).2.2))])) := by
  refine ⟨?_, ?_, ?_⟩
  · intro hq hd
    simp only [main, hadb, if_true, print_devices]
    rw [list_devices_ok w hq, hd]
    rfl
  · intro d0 ds hq hd
    simp only [main, hadb, if_true, print_devices]
    rw [list_devices_ok w hq, hd]
    rfl
  · intro hq
    simp only [main, hadb, if_true, print_devices, list_devices]
    rw [if_pos hq]
    rfl

/-- Witness for the amended C9: a successful query listing one device,
and a failing query exiting 1. -/
theorem c9_devices_exit_status_witness :
    main Command.devices
        (World.mk (fun _ => true)
          (fun _ => (0, "List of devices attached\nABC123\tdevice\tusb\n", ""))) =
      (0, .run ["adb", "devices"] :: .print "Dispositivos detectados:" ::
        ["ABC123"].map (fun s => Event.print ("- " ++ s))) ∧
    main Command.devices
        (World.mk (fun _ => true) (fun _ => (3, "", "err"))) =
      (1, [.run ["adb", "devices"],
           .printErr "Error: Fallo ejecutando adb devices: err"]) := by
  refine ⟨(c9_devices_exit_status
      (World.mk (fun _ => true)
        (fun _ => (0, "List of devices attached\nABC123\tdevice\tusb\n", "")))
      rfl).2.1 "ABC123" [] rfl (by decide), ?_⟩
  have h := (c9_devices_exit_status
    (World.mk (fun _ => true) (fun _ => (3, "", "err"))) rfl).2.2 (by decide)
  rw [h]
  decide

end PhonixCast
